import Mathlib

/-!
Shallow embedding of the diagnostic request/response reconciliation engine
of `route-check.py`: the class `RouteDiag` (pending-request tracking, message
dispatch, retry/timeout driver, route-delta reconciliation) and the report
rows built by `main`.

Modelling conventions:
* A Python `dict` (insertion ordered, unique keys) is modelled as an
  association list with the helpers `dget?`, `dset`, `derase`, `dcontains`:
  `dset` updates an existing key in place and appends a new key at the end
  (`d[k] = v`), `derase` removes the key (`del d[k]`; on lists that model
  real dicts the key occurs at most once).
* A Python `set` is modelled as a list grown with `setAdd` / `setUnion`,
  which skip already-present elements; the source only uses membership,
  iteration and size of these sets.
* `datetime.datetime` instants are modelled as natural-number ticks
  (seconds); `datetime.now()` becomes an explicit `now` argument and
  `now + timedelta(seconds = t)` becomes `now + t`.
* Expressions that can raise (`d[k]` dict indexing that can `KeyError`,
  `xs[0]` on an empty list) are modelled in the `Option` monad, with
  `none` standing for the raised exception.
* The websocket send coroutines collected in `self.tasks` are modelled by
  the trace field `sent` (one element per `ws.send`); `flush_requests`
  only awaits those sends and is a no-op on the modelled state.
* Inbound frames are modelled already JSON-parsed (`InMsg`), with the
  fields the dispatcher reads; route records are modelled already parsed
  by `from_dict` (well-formed payloads).
-/

namespace RouteCheck

/-! ## Python dict / set primitives -/

/-- Lookup in an insertion-ordered dict modelled as an association list. -/
def dget? {κ α : Type} [DecidableEq κ] (m : List (κ × α)) (k : κ) : Option α :=
  match m with
  | [] => none
  | p :: rest => if p.1 = k then some p.2 else dget? rest k

/-- Membership test, Python `k in d`. -/
def dcontains {κ α : Type} [DecidableEq κ] (m : List (κ × α)) (k : κ) : Bool :=
  (dget? m k).isSome

/-- Assignment `d[k] = v`: update in place if the key exists, else append. -/
def dset {κ α : Type} [DecidableEq κ] (m : List (κ × α)) (k : κ) (v : α) :
    List (κ × α) :=
  match m with
  | [] => [(k, v)]
  | p :: rest => if p.1 = k then (k, v) :: rest else p :: dset rest k v

/-- Deletion `del d[k]` (a dict holds a key at most once). -/
def derase {κ α : Type} [DecidableEq κ] (m : List (κ × α)) (k : κ) :
    List (κ × α) :=
  m.filter (fun p => decide (p.1 ≠ k))

/-- Python `set.add`: append only when absent. -/
def setAdd {α : Type} [DecidableEq α] (s : List α) (x : α) : List α :=
  if x ∈ s then s else s ++ [x]

/-- Python `set.update` / building a set from an iterable on top of `s`. -/
def setUnion {α : Type} [DecidableEq α] (s : List α) (xs : List α) : List α :=
  xs.foldl setAdd s

/-! ## Module constants of route-check.py -/

/-- Source comment: maximum number of times to try getting routes from
edge/gateway (`max_tries = 5`). -/
def max_tries : Nat := 5

/-- Source flag `dump_all_routes = True` (controls only a debug file dump). -/
def dump_all_routes : Bool := true

/-! ## Route records and hub metadata -/

/-- Gateway route record, the `GatewayRouteEntry` dataclass. -/
structure GatewayRouteEntry where
  network_addr : String
  network_mask : String
  type : String
  peer_name : String
  reachable : Bool
  metric : Int
  preference : Int
  flags : String
  age : Int
  c_tag : Int
  s_tag : Int
  handoff : String
  mode : String
  lost_reason : String
  deriving DecidableEq, Repr

/-- Edge route record, the `EdgeRouteEntry` dataclass. -/
structure EdgeRouteEntry where
  route_type : String
  route_address : String
  route_netmask : String
  deriving DecidableEq, Repr

/-- HA payload, the `ListEdgeHaData` dataclass. -/
structure ListEdgeHaData where
  cluster_id : Option Int
  cluster_name : Option String
  deriving DecidableEq, Repr

/-- HA wrapper, the `ListEdgeHa` dataclass. -/
structure ListEdgeHa where
  data : Option ListEdgeHaData
  type : Option String
  deriving DecidableEq, Repr

/-- Hub metadata, the `EnterpriseEdgeListEdge` dataclass. `logical_id` and
`name` are declared `str | None` in the source but every use in the engine
(dict keys, `h.name.lower()`) assumes they are present, so they are
modelled as `String`; likewise `is_hub` is only ever truth-tested. -/
structure EnterpriseEdgeListEdge where
  id : Option Int
  logical_id : String
  name : String
  edge_state : Option String
  activation_state : Option String
  is_hub : Bool
  ha : Option ListEdgeHa
  deriving DecidableEq, Repr

/-! ## Request tracker state -/

/-- Pending edge request, the `EdgeRouteRequestState` dataclass
(`attempt_count` defaults to 1 at construction). -/
structure EdgeRouteRequestState where
  logical_id : String
  timeout_at : Nat
  timeout_sec : Nat
  attempt_count : Nat
  deriving DecidableEq, Repr

/-- Pending gateway request, the `GatewayRouteRequestState` dataclass. -/
structure GatewayRouteRequestState where
  gateway_logical_id : String
  enterprise_logical_id : String
  segment_id : Int
  timeout_at : Nat
  timeout_sec : Nat
  attempt_count : Nat
  deriving DecidableEq, Repr

/-! ## Wire messages -/

/-- Outbound frame, as serialized by `request_edge_routes` (which always
sends `test = "ROUTE_DUMP"` with fixed parameters) and
`request_gateway_routes`; the `token` field carries `self.token`. -/
inductive OutMsg where
  | runDiagnostics (logicalId : String) (token : Option String)
  | getGwRouteTable (segmentId : Int) (logicalId : String)
      (enterpriseLogicalId : String) (token : Option String)
  deriving DecidableEq, Repr

/-- Decoded `data.results.output` of an edge diagnostics response.
`route_dump_result` is the `ROUTE_DUMP.result` field; `none` models a
decoded object in which `ROUTE_DUMP` or `result` is missing, which the
chained `.get(..., ...)` calls default to `[[]]`. -/
structure EdgeDiagOutput where
  route_dump_result : Option (List (List EdgeRouteEntry))
  deriving DecidableEq, Repr

/-- Inbound frame after `json.loads`, restricted to the fields
`handle_message` reads. For `runDiagnostics`, `output = none` models a
missing, `None` or empty `data.results.output` string (all falsy, so the
source skips `json.loads`). For `getGwRouteTable`, a missing `data.result`
defaults to `[]`. `invalidData` models a frame whose `data` is not a dict;
`other` models any unrecognized action. -/
inductive InMsg where
  | runDiagnostics (logicalId : String) (test : String)
      (output : Option EdgeDiagOutput)
  | getGwRouteTable (logicalId : String) (result : List GatewayRouteEntry)
  | noop (token : Option String)
  | invalidData
  | other
  deriving DecidableEq, Repr

/-! ## RouteDiag state -/

/-- The mutable state of a `RouteDiag` instance. `sent` is the trace of
outbound frames handed to `ws.send` (the source's `self.tasks`). -/
structure RouteDiag where
  token : Option String
  pending_gateways : List (String × GatewayRouteRequestState)
  pending_edges : List (String × EdgeRouteRequestState)
  gateway_routes : List (String × List GatewayRouteEntry)
  edge_routes : List (String × List EdgeRouteEntry)
  gateway_hubs : List (String × List String)
  sent : List OutMsg
  deriving DecidableEq, Repr

/-- Freshly constructed `RouteDiag` (the `__init__` body). -/
def initRouteDiag : RouteDiag :=
  { token := none
    pending_gateways := []
    pending_edges := []
    gateway_routes := []
    edge_routes := []
    gateway_hubs := []
    sent := [] }

/-! ## Message dispatcher (`RouteDiag._handle_* `, `RouteDiag.handle_message`) -/

/-- Body of `RouteDiag._handle_edge_routes`: drop the pending entry if
present (else only an error is logged), then clear-or-create the
`edge_routes` entry and append exactly the entries with
`route_type == "Edge"`. -/
def handle_edge_routes_fn (d : RouteDiag) (logical_id : String)
    (routes : List EdgeRouteEntry) : RouteDiag :=
  let d := { d with pending_edges := derase d.pending_edges logical_id }
  { d with
      edge_routes :=
        dset d.edge_routes logical_id
          (routes.filter (fun r => r.route_type == "Edge")) }

/-- Body of `RouteDiag._handle_edge_response`. The source computes
`routes = response.get("ROUTE_DUMP", dict()).get("result", [[]])[0]`;
the trailing `[0]` raises `IndexError` when the `result` list is present
but empty, modelled by `none`. When the first inner list is empty, the source
only logs `No routes in response` and changes nothing. -/
def handle_edge_response_fn (d : RouteDiag) (logical_id : String)
    (test_name : String) (response : EdgeDiagOutput) : Option RouteDiag :=
  if test_name == "ROUTE_DUMP" then
    match response.route_dump_result.getD [[]] with
    | [] => none
    | routes :: _ =>
      if routes.length > 0 then some (handle_edge_routes_fn d logical_id routes)
      else some d
  else
    some d

/-- Body of `RouteDiag._handle_gw_routes`: drop the pending entry if
present (else only an error is logged), then clear-or-create the
`gateway_routes` entry and append exactly the entries with
`type == "edge2edge"` (the computed `lower_name` is unused in the source). -/
def handle_gw_routes_fn (d : RouteDiag) (logical_id : String)
    (routes : List GatewayRouteEntry) : RouteDiag :=
  let d := { d with pending_gateways := derase d.pending_gateways logical_id }
  { d with
      gateway_routes :=
        dset d.gateway_routes logical_id
          (routes.filter (fun r => r.type == "edge2edge")) }

/-- `RouteDiag.handle_message`. Returns `none` when the dispatched handler
raises; otherwise `some (state, b)` where `b` is the source's boolean
return value. A `runDiagnostics` frame with falsy output falls through the
handler call and returns `False`; a frame with decodable output is handled
and returns `True` whatever the test name. -/
def handle_message (d : RouteDiag) (m : InMsg) : Option (RouteDiag × Bool) :=
  match m with
  | .invalidData => some (d, true)
  | .runDiagnostics logical_id test_name output =>
    match output with
    | some results_dict =>
      (handle_edge_response_fn d logical_id test_name results_dict).map
        (fun d => (d, true))
    | none => some (d, false)
  | .getGwRouteTable logical_id result =>
    some (handle_gw_routes_fn d logical_id result, true)
  | .noop tok => some ({ d with token := tok }, true)
  | .other => some (d, false)

/-! ## Request tracker and retry/timeout driver -/

/-- `RouteDiag.request_gateway_routes`: send the `getGwRouteTable` frame and
record a fresh pending state with `attempt_count = 1` and
`timeout_at = now + timeout_sec` (the source default for `timeout_sec`
is 20; `main` passes 40). -/
def request_gateway_routes (d : RouteDiag) (now : Nat) (segment_id : Int)
    (gateway_logical_id : String) (enterprise_logical_id : String)
    (timeout_sec : Nat) : RouteDiag :=
  { d with
      sent := d.sent ++
        [OutMsg.getGwRouteTable segment_id gateway_logical_id
          enterprise_logical_id d.token]
      pending_gateways :=
        dset d.pending_gateways gateway_logical_id
          { gateway_logical_id := gateway_logical_id
            enterprise_logical_id := enterprise_logical_id
            segment_id := segment_id
            timeout_at := now + timeout_sec
            timeout_sec := timeout_sec
            attempt_count := 1 } }

/-- `RouteDiag.request_edge_routes`: send the `runDiagnostics ROUTE_DUMP`
frame and record a fresh pending state with `attempt_count = 1` (the source
default for `timeout_sec` is 30). -/
def request_edge_routes (d : RouteDiag) (now : Nat)
    (edge_logical_id : String) (timeout_sec : Nat) : RouteDiag :=
  { d with
      sent := d.sent ++ [OutMsg.runDiagnostics edge_logical_id d.token]
      pending_edges :=
        dset d.pending_edges edge_logical_id
          { logical_id := edge_logical_id
            timeout_at := now + timeout_sec
            timeout_sec := timeout_sec
            attempt_count := 1 } }

/-- Models the aliasing in `s = self.request_edge_routes(...)` followed by
`s.attempt_count += 1`: the returned state object is the very object stored
in `pending_edges`, so the increment mutates the stored entry. -/
def bump_edge_attempt (d : RouteDiag) (logical_id : String) : RouteDiag :=
  match dget? d.pending_edges logical_id with
  | some st =>
    { d with
        pending_edges :=
          dset d.pending_edges logical_id
            { st with attempt_count := st.attempt_count + 1 } }
  | none => d

/-- Gateway counterpart of `bump_edge_attempt` for
`s = self.request_gateway_routes(...)`, `s.attempt_count += 1`. -/
def bump_gateway_attempt (d : RouteDiag) (logical_id : String) : RouteDiag :=
  match dget? d.pending_gateways logical_id with
  | some st =>
    { d with
        pending_gateways :=
          dset d.pending_gateways logical_id
            { st with attempt_count := st.attempt_count + 1 } }
  | none => d

/-- One timed-out edge step of `handle_request_timeouts`: delete from
pending, and when `attempt_count < max_tries` re-issue with the same
timeout duration and bump the freshly stored state's `attempt_count`
(so it becomes 2), counting one requeue; otherwise only log abandonment. -/
def timeout_edge_step (now : Nat) (acc : RouteDiag × Nat)
    (p : String × EdgeRouteRequestState) : RouteDiag × Nat :=
  let d := { acc.1 with pending_edges := derase acc.1.pending_edges p.1 }
  if p.2.attempt_count < max_tries then
    let d := request_edge_routes d now p.1 p.2.timeout_sec
    (bump_edge_attempt d p.1, acc.2 + 1)
  else
    (d, acc.2)

/-- One timed-out gateway step of `handle_request_timeouts`, mirroring
`timeout_edge_step`. -/
def timeout_gateway_step (now : Nat) (acc : RouteDiag × Nat)
    (p : String × GatewayRouteRequestState) : RouteDiag × Nat :=
  let d := { acc.1 with pending_gateways := derase acc.1.pending_gateways p.1 }
  if p.2.attempt_count < max_tries then
    let d := request_gateway_routes d now p.2.segment_id p.1
      p.2.enterprise_logical_id p.2.timeout_sec
    (bump_gateway_attempt d p.1, acc.2 + 1)
  else
    (d, acc.2)

/-- `RouteDiag.handle_request_timeouts`: snapshot the timed-out edges
(`now > timeout_at`), process them, then snapshot and process the
timed-out gateways; returns the requeue count. -/
def handle_request_timeouts (d : RouteDiag) (now : Nat) : RouteDiag × Nat :=
  let timed_out_edges := d.pending_edges.filter (fun p => decide (now > p.2.timeout_at))
  let acc := timed_out_edges.foldl (timeout_edge_step now) (d, 0)
  let timed_out_gateways :=
    acc.1.pending_gateways.filter (fun p => decide (now > p.2.timeout_at))
  timed_out_gateways.foldl (timeout_gateway_step now) acc

/-- `RouteDiag.get_pending_count`. -/
def get_pending_count (d : RouteDiag) : Nat :=
  d.pending_edges.length + d.pending_gateways.length

/-! ## Scenario drivers mirroring the main loop -/

/-- Apply `handle_message` as the main loop does; the messages fed to it
in the modelled scenarios are always handled without raising. -/
def apply_message (d : RouteDiag) (m : InMsg) : RouteDiag :=
  ((handle_message d m).map Prod.fst).getD d

/-- Run one `handle_request_timeouts` pass per listed instant, as the main
loop does on each receive timeout. -/
def timeout_rounds (d : RouteDiag) (times : List Nat) : RouteDiag :=
  times.foldl (fun d t => (handle_request_timeouts d t).1) d

/-- Number of `runDiagnostics` frames sent for a given edge identity. -/
def count_edge_sends (sent : List OutMsg) (lid : String) : Nat :=
  (sent.filter (fun m =>
    match m with
    | .runDiagnostics l _ => l == lid
    | _ => false)).length

/-- Number of `getGwRouteTable` frames sent for a given gateway identity. -/
def count_gateway_sends (sent : List OutMsg) (lid : String) : Nat :=
  (sent.filter (fun m =>
    match m with
    | .getGwRouteTable _ l _ _ => l == lid
    | _ => false)).length

/-! ## Reconciliation engine -/

/-- Destination pair extracted from an edge route record, the set
comprehension `(route.route_address, route.route_netmask)` in
`_compute_hub_routes`. -/
def destOf (r : EdgeRouteEntry) : String × String :=
  (r.route_address, r.route_netmask)

/-- Module-level `add_expected_hub_routes`: fold every gateway route into
the per-hub expected map keyed by `(network_addr, network_mask)`,
accumulating the contributing `peer_name`s as a set. -/
def add_expected_hub_routes
    (expected_routes_dst : List ((String × String) × List String))
    (routes : List GatewayRouteEntry) :
    List ((String × String) × List String) :=
  routes.foldl
    (fun dst route =>
      let key := (route.network_addr, route.network_mask)
      match dget? dst key with
      | some s => dset dst key (setAdd s route.peer_name)
      | none => dset dst key [route.peer_name])
    expected_routes_dst

/-- `RouteDiag._compute_gateway_hubs`: clear `gateway_hubs` and invert the
relevant-gateway map so each gateway maps to the set of hubs using it. -/
def compute_gateway_hubs_fn (d : RouteDiag)
    (relevant_gateways : List (String × List String)) : RouteDiag :=
  { d with
      gateway_hubs :=
        relevant_gateways.foldl
          (fun gh p =>
            p.2.foldl
              (fun gh gw =>
                match dget? gh gw with
                | none => dset gh gw [p.1]
                | some hubs => dset gh gw (setAdd hubs p.1))
              gh)
          [] }

/-- `RouteDiag._compute_hub_id_redirect_map`: a hub's id is its HA cluster
name when one is present, else its own logical id. -/
def compute_hub_id_redirect_map (hubs : List EnterpriseEdgeListEdge) :
    List (String × String) :=
  hubs.foldl
    (fun hub_redirects hub =>
      match hub.ha with
      | some ha =>
        match ha.data with
        | some hd =>
          match hd.cluster_name with
          | some cluster_name => dset hub_redirects hub.logical_id cluster_name
          | none => dset hub_redirects hub.logical_id hub.logical_id
        | none => dset hub_redirects hub.logical_id hub.logical_id
      | none => dset hub_redirects hub.logical_id hub.logical_id)
    []

/-- `RouteDiag._hub_uses_gateway`. -/
def hub_uses_gateway (d : RouteDiag) (hub_logical_id : String)
    (gateway_logical_id : String) : Bool :=
  ((dget? d.gateway_hubs gateway_logical_id).getD []).contains hub_logical_id

/-- `RouteDiag._compute_expected_hub_routes`: initialize an empty expected
map for every redirect target, then for every collected gateway route list
and every hub using that gateway, union the routes into the hub-id's
entry. The two dict indexings (`hub_redirects[...]`, the expected map
entry) can `KeyError` on arbitrary inputs, hence the `Option`. -/
def compute_expected_hub_routes (d : RouteDiag)
    (hub_redirects : List (String × String))
    (hubs : List EnterpriseEdgeListEdge) :
    Option (List (String × List ((String × String) × List String))) :=
  let init := hub_redirects.foldl (fun e p => dset e p.2 []) []
  d.gateway_routes.foldlM
    (fun e p =>
      hubs.foldlM
        (fun e hub =>
          if hub_uses_gateway d hub.logical_id p.1 then do
            let hub_id ← dget? hub_redirects hub.logical_id
            let cur ← dget? e hub_id
            pure (dset e hub_id (add_expected_hub_routes cur p.2))
          else
            pure e)
        e)
    init

/-- Loop body of `RouteDiag._compute_hub_routes` for one hub: take
`self.edge_routes[hub.logical_id]` — a plain dict indexing that raises
`KeyError` (modelled `none`) when the hub's dump was never collected —
extract the destination pairs and union them into the hub-id's set via
`setdefault(hub_id, set()).update(...)`. -/
def hub_routes_step (d : RouteDiag) (hub_redirects : List (String × String))
    (hub_routes : List (String × List (String × String)))
    (hub : EnterpriseEdgeListEdge) :
    Option (List (String × List (String × String))) := do
  let collected ← dget? d.edge_routes hub.logical_id
  let this_hubs_routes := collected.map destOf
  let hub_id ← dget? hub_redirects hub.logical_id
  pure (dset hub_routes hub_id
    (setUnion ((dget? hub_routes hub_id).getD []) this_hubs_routes))

/-- `RouteDiag._compute_hub_routes`: fold `hub_routes_step` over the hub
list, starting from an empty dict. -/
def compute_hub_routes (d : RouteDiag)
    (hub_redirects : List (String × String))
    (hubs : List EnterpriseEdgeListEdge) :
    Option (List (String × List (String × String))) :=
  hubs.foldlM (hub_routes_step d hub_redirects) []

/-- The `missing_routes` dict comprehension inside `compute_route_deltas`:
expected destinations absent from the hub's actual route set, with their
contributing peer sets. -/
def missing_routes_of
    (expected_routes : List ((String × String) × List String))
    (this_hubs_routes : List (String × String)) :
    List ((String × String) × List String) :=
  expected_routes.filter (fun q => !(this_hubs_routes.contains q.1))

/-- `RouteDiag.compute_route_deltas`. Emits, per hub-id, one triple
`(hub_id, route[0], edges)` per missing route — note the source appends
`route[0]`, the destination address alone. The `dump_all_routes` debug
file write touches no engine state and is omitted. -/
def compute_route_deltas (d0 : RouteDiag)
    (relevant_gateways : List (String × List String))
    (hubs : List EnterpriseEdgeListEdge) :
    Option (List (String × String × List String)) :=
  let d := compute_gateway_hubs_fn d0 relevant_gateways
  let hub_redirects := compute_hub_id_redirect_map hubs
  match compute_expected_hub_routes d hub_redirects hubs with
  | none => none
  | some expected_hub_routes =>
    match compute_hub_routes d hub_redirects hubs with
    | none => none
    | some hub_routes =>
      some (expected_hub_routes.foldl
        (fun results p =>
          let this_hubs_routes := (dget? hub_routes p.1).getD []
          let missing := missing_routes_of p.2 this_hubs_routes
          results ++ missing.map (fun q => (p.1, q.1.1, q.2)))
        [])

/-! ## Report rows built by `main` -/

/-- One row of the CSV report written by `main`. -/
structure ResultRow where
  hub_id : String
  route : String
  peers : String
  deriving DecidableEq, Repr

/-- The `result_dicts` comprehension in `main`: map the hub id through
`hub_name_map` when present, keep the route string as is, and render the
peer list as `"[peer1 peer2 ...]"`. -/
def build_result_rows (hub_name_map : List (String × String))
    (result : List (String × String × List String)) : List ResultRow :=
  result.map (fun r =>
    { hub_id :=
        match dget? hub_name_map r.1 with
        | none => r.1
        | some name => name
      route := r.2.1
      peers := "[" ++ String.intercalate " " r.2.2 ++ "]" })

/-! ## Dict and set lemmas -/

theorem dget?_dset_self {κ α : Type} [DecidableEq κ] (m : List (κ × α))
    (k : κ) (v : α) : dget? (dset m k v) k = some v := by
  induction m with
  | nil => simp [dset, dget?]
  | cons p rest ih =>
    by_cases h : p.1 = k
    · simp [dset, dget?, h]
    · simp [dset, dget?, h, ih]

theorem dget?_derase_self {κ α : Type} [DecidableEq κ] (m : List (κ × α))
    (k : κ) : dget? (derase m k) k = none := by
  induction m with
  | nil => rfl
  | cons p rest ih =>
    by_cases h : p.1 = k
    · simpa [derase, List.filter_cons, h] using ih
    · simpa [derase, List.filter_cons, h, dget?] using ih

theorem derase_of_none {κ α : Type} [DecidableEq κ] (m : List (κ × α))
    (k : κ) (h : dget? m k = none) : derase m k = m := by
  induction m with
  | nil => rfl
  | cons p rest ih =>
    by_cases hpk : p.1 = k
    · simp [dget?, hpk] at h
    · have hrest : dget? rest k = none := by simpa [dget?, hpk] using h
      simp [derase, List.filter_cons, hpk] at *
      exact ih hrest

theorem mem_setAdd {α : Type} [DecidableEq α] (s : List α) (x y : α) :
    y ∈ setAdd s x ↔ y ∈ s ∨ y = x := by
  by_cases h : x ∈ s
  · simp only [setAdd, if_pos h]
    constructor
    · exact Or.inl
    · rintro (hy | rfl)
      · exact hy
      · exact h
  · simp [setAdd, if_neg h]

theorem mem_setUnion {α : Type} [DecidableEq α] (xs s : List α) (y : α) :
    y ∈ setUnion s xs ↔ y ∈ s ∨ y ∈ xs := by
  induction xs generalizing s with
  | nil => simp [setUnion]
  | cons x xs ih =>
    have hstep : setUnion s (x :: xs) = setUnion (setAdd s x) xs := rfl
    rw [hstep, ih, mem_setAdd]
    simp only [List.mem_cons]
    tauto

/-! ## Concrete scenarios used by the claim theorems -/

/-- C1 scenario: an edge and a gateway are requested at `t = 0` with a
30-second timeout and never respond; the timeout driver runs at
`t = 31, 62, ..., 217`, past every deadline. -/
def c1_d0 : RouteDiag :=
  request_gateway_routes (request_edge_routes initRouteDiag 0 "edge-1" 30)
    0 0 "gw-1" "ent-1" 30

/-- C1 scenario after seven timeout-driver rounds. -/
def c1_final : RouteDiag := timeout_rounds c1_d0 [31, 62, 93, 124, 155, 186, 217]

/-- C2 scenario: a well-formed edge route record for the responding edge. -/
def c2_entry : EdgeRouteEntry :=
  { route_type := "Edge", route_address := "10.1.0.0", route_netmask := "255.255.0.0" }

/-- C2 scenario: two edge targets requested at `t = 0`; `e1` responds on
its first attempt, `e2` never responds. -/
def c2_d0 : RouteDiag :=
  request_edge_routes (request_edge_routes initRouteDiag 0 "e1" 30) 0 "e2" 30

/-- C2 scenario after `e1`'s response is dispatched. -/
def c2_d1 : RouteDiag :=
  apply_message c2_d0
    (.runDiagnostics "e1" "ROUTE_DUMP" (some { route_dump_result := some [[c2_entry]] }))

/-- C2 scenario after `max_tries = 5` timeout-driver rounds. -/
def c2_final : RouteDiag := timeout_rounds c2_d1 [31, 62, 93, 124, 155]

/-- C3 scenario: one pending edge request for `e`. -/
def c3_d : RouteDiag := request_edge_routes initRouteDiag 0 "e" 30

/-- C3 scenario: a `ROUTE_DUMP` response for `e` whose decoded output holds
an empty route list (`result = [[]]`). -/
def c3_msg : InMsg :=
  .runDiagnostics "e" "ROUTE_DUMP" (some { route_dump_result := some [[]] })

/-- C5 scenario: gateway `G` reports the single `edge2edge` route
`(10.0.0.0, 24)` with peer name `H`. -/
def c5_gw_entry : GatewayRouteEntry :=
  { network_addr := "10.0.0.0", network_mask := "24", type := "edge2edge"
    peer_name := "H", reachable := true, metric := 0, preference := 0
    flags := "", age := 0, c_tag := 0, s_tag := 0, handoff := "", mode := ""
    lost_reason := "" }

/-- C5 scenario: hub `H`, not in an HA cluster. -/
def c5_hub : EnterpriseEdgeListEdge :=
  { id := some 1, logical_id := "H", name := "H", edge_state := some "CONNECTED"
    activation_state := some "ACTIVATED", is_hub := true, ha := none }

/-- C5 scenario: collected data — `G`'s filtered routes, and an edge dump
for `H` that contributed no routes. -/
def c5_d : RouteDiag :=
  { initRouteDiag with
      gateway_routes := [("G", [c5_gw_entry])]
      edge_routes := [("H", [])] }

/-! ## Claim theorems -/

/-- C1: the claim states that a never-responding target receives exactly
`max_tries = 5` distinct requests, each re-issue carrying the previous
attempt count plus one, after which it is absent from the pending maps.
The code instead stores every re-issued request with `attempt_count = 2`
(a fresh state whose count is then incremented once), so the
`attempt_count < max_tries` guard always passes: after seven timeout
rounds eight requests have been issued for each target and both targets
are still pending with `attempt_count = 2`. -/
theorem c1_retry_unbounded :
    count_edge_sends c1_final.sent "edge-1" = 8 ∧
    count_gateway_sends c1_final.sent "gw-1" = 8 ∧
    (dget? c1_final.pending_edges "edge-1").map (fun s => s.attempt_count) = some 2 ∧
    (dget? c1_final.pending_gateways "gw-1").map (fun s => s.attempt_count) = some 2 := by
  decide

/-- C2: the claim states that with every target either responding on its
first attempt or never responding, `get_pending_count` reaches 0 within
`max_tries` timeout rounds so the loop exits. In the code a
never-responding target is re-queued forever (its stored attempt count is
always 2), so after `max_tries` rounds the pending count is still 1 — the
responding edge `e1` was cleared and its routes stored, but `e2` is still
pending and the loop cannot exit. -/
theorem c2_pending_never_drains :
    get_pending_count c2_final = 1 ∧
    dcontains c2_final.pending_edges "e2" = true ∧
    dcontains c2_final.pending_edges "e1" = false ∧
    dget? c2_d1.edge_routes "e1" = some [c2_entry] := by
  decide

/-- C3 counterexample: dispatching a `ROUTE_DUMP` response whose decoded
output holds an empty route list returns the state unchanged — in
particular the pending entry for the target is NOT removed, contradicting
the claim that the empty answer clears the pending entry. -/
theorem c3_counterexample :
    handle_message c3_d c3_msg = some (c3_d, true) ∧
    dcontains c3_d.pending_edges "e" = true := by
  decide

/-- C3 amended: a `runDiagnostics ROUTE_DUMP` response whose decoded output
holds an empty route list leaves the whole state unchanged — `edge_routes`
is not updated and the pending edge entry is retained, so the empty answer
is treated like no answer and the target is retried on timeout. -/
theorem c3_empty_reply_leaves_state (d : RouteDiag) (lid : String)
    (rest : List (List EdgeRouteEntry)) :
    handle_message d
      (.runDiagnostics lid "ROUTE_DUMP" (some { route_dump_result := some ([] :: rest) }))
      = some (d, true) := by
  simp [handle_message, handle_edge_response_fn]

/-- C5: evaluating the end-to-end scenario — hub `H` (no HA) peering with
gateway `G`, `G` reporting the single filtered `edge2edge` route
`(10.0.0.0, 24)` with peer `H`, `H`'s dump contributing no routes. The
engine emits exactly one row with hub field `H` and peers field `[H]`,
but its route field is `10.0.0.0` — `compute_route_deltas` appends
`route[0]`, the bare address, dropping the mask — not the
`10.0.0.0/24` the claim states. -/
theorem c5_report_row_drops_mask :
    compute_route_deltas c5_d [("H", ["G"])] [c5_hub]
      = some [("H", "10.0.0.0", ["H"])] ∧
    (compute_route_deltas c5_d [("H", ["G"])] [c5_hub]).map
        (build_result_rows [("H", "H")])
      = some [{ hub_id := "H", route := "10.0.0.0", peers := "[H]" }] := by
  decide

/-- C6: every delivery of a `getGwRouteTable` response clears and fully
replaces the stored list, so two deliveries in a row for the same gateway
identity (in particular two deliveries of the same response) leave
`gateway_routes[id]` equal to the filtered contents of the second
delivery; the edge `ROUTE_DUMP` handler replaces `edge_routes[id]` the
same way. -/
theorem c6_redelivery_replaces (d : RouteDiag) (lid : String)
    (g1 g2 : List GatewayRouteEntry) (e1 e2 : List EdgeRouteEntry) :
    dget? (handle_gw_routes_fn (handle_gw_routes_fn d lid g1) lid g2).gateway_routes lid
      = some (g2.filter (fun r => r.type == "edge2edge")) ∧
    dget? (handle_edge_routes_fn (handle_edge_routes_fn d lid e1) lid e2).edge_routes lid
      = some (e2.filter (fun r => r.route_type == "Edge")) := by
  constructor
  · simp [handle_gw_routes_fn, dget?_dset_self]
  · simp [handle_edge_routes_fn, dget?_dset_self]

/-- C7: after ingesting a gateway response, the stored list for that
gateway holds exactly the entries whose `type` is `edge2edge`; after
ingesting an edge `ROUTE_DUMP` response, the stored list holds exactly the
entries whose `route_type` is `Edge`; every other entry is dropped. -/
theorem c7_ingestion_filters (d : RouteDiag) (lid : String)
    (groutes : List GatewayRouteEntry) (eroutes : List EdgeRouteEntry) :
    (∀ r, r ∈ ((dget? (handle_gw_routes_fn d lid groutes).gateway_routes lid).getD [])
        ↔ r ∈ groutes ∧ r.type = "edge2edge") ∧
    (∀ r, r ∈ ((dget? (handle_edge_routes_fn d lid eroutes).edge_routes lid).getD [])
        ↔ r ∈ eroutes ∧ r.route_type = "Edge") := by
  constructor
  · intro r
    simp [handle_gw_routes_fn, dget?_dset_self, List.mem_filter]
  · intro r
    simp [handle_edge_routes_fn, dget?_dset_self, List.mem_filter]

/-- C10: a `getGwRouteTable` frame whose `data.result` is missing or empty
(both reach the handler as the empty list) is treated as a valid answer:
the gateway's pending entry is gone afterwards and `gateway_routes[id]` is
replaced by the empty list — whereas an edge `ROUTE_DUMP` response whose
decoded route array is empty changes nothing at all. -/
theorem c10_empty_gw_result_is_answer (d : RouteDiag) (lid : String) :
    (∃ d', handle_message d (.getGwRouteTable lid []) = some (d', true) ∧
      dget? d'.pending_gateways lid = none ∧
      dget? d'.gateway_routes lid = some []) ∧
    (∀ rest : List (List EdgeRouteEntry),
      handle_message d
        (.runDiagnostics lid "ROUTE_DUMP" (some { route_dump_result := some ([] :: rest) }))
        = some (d, true)) := by
  constructor
  · refine ⟨handle_gw_routes_fn d lid [], rfl, ?_, ?_⟩
    · simp [handle_gw_routes_fn, dget?_derase_self]
    · simp [handle_gw_routes_fn, dget?_dset_self]
  · intro rest
    simp [handle_message, handle_edge_response_fn]

/-- Auxiliary for C4: folding `hub_routes_step` over a hub list fails — the
`KeyError` propagates — whenever some hub in the list has no `edge_routes`
entry, whatever the accumulator. -/
theorem hub_routes_foldlM_none (d : RouteDiag) (rm : List (String × String)) :
    ∀ (hubs : List EnterpriseEdgeListEdge)
      (acc : List (String × List (String × String))),
      (∃ hub ∈ hubs, dget? d.edge_routes hub.logical_id = none) →
      List.foldlM (hub_routes_step d rm) acc hubs = none := by
  intro hubs
  induction hubs with
  | nil =>
    rintro acc ⟨hub, hmem, _⟩
    cases hmem
  | cons hub0 rest ih =>
    rintro acc ⟨hub, hmem, hnone⟩
    rw [List.foldlM_cons]
    rcases List.mem_cons.mp hmem with rfl | hmem'
    · simp [hub_routes_step, hnone]
    · cases hstep : hub_routes_step d rm acc hub0 with
      | none => simp
      | some acc' => simpa using ih acc' ⟨hub, hmem', hnone⟩

/-- C4 scenario for the counterexample: a gateway route is collected and
expected for hub `H4`, but `H4`'s own dump was never collected (no
`edge_routes` entry at all). -/
def c4_gw_entry : GatewayRouteEntry :=
  { network_addr := "10.4.0.0", network_mask := "16", type := "edge2edge"
    peer_name := "H4", reachable := true, metric := 0, preference := 0
    flags := "", age := 0, c_tag := 0, s_tag := 0, handoff := "", mode := ""
    lost_reason := "" }

/-- C4 scenario hub: `H4`, not in an HA cluster. -/
def c4_hub : EnterpriseEdgeListEdge :=
  { id := some 4, logical_id := "H4", name := "hub-four", edge_state := some "CONNECTED"
    activation_state := some "ACTIVATED", is_hub := true, ha := none }

/-- C4 scenario state: gateway data present, `edge_routes` empty (the hub's
attempt budget was exhausted before any response). -/
def c4_d : RouteDiag :=
  { initRouteDiag with gateway_routes := [("G4", [c4_gw_entry])] }

/-- C4 counterexample: with hub `H4`'s dump never collected,
`compute_route_deltas` does not complete and report the expected
destinations as missing — it raises (`none` models the `KeyError` from
`self.edge_routes[hub.logical_id]`) and produces no report at all. -/
theorem c4_counterexample :
    compute_route_deltas c4_d [("H4", ["G4"])] [c4_hub] = none := by
  decide

/-- C4 amended: whenever some hub has no `edge_routes` entry (its edge dump
was never collected, e.g. after the attempt budget was exhausted),
`compute_route_deltas` fails with a `KeyError` instead of completing; no
deltas are reported for any hub. -/
theorem c4_uncollected_hub_raises (d : RouteDiag)
    (relevant_gateways : List (String × List String))
    (hubs : List EnterpriseEdgeListEdge)
    (h : ∃ hub ∈ hubs, dget? d.edge_routes hub.logical_id = none) :
    compute_route_deltas d relevant_gateways hubs = none := by
  have hroutes : compute_hub_routes (compute_gateway_hubs_fn d relevant_gateways)
      (compute_hub_id_redirect_map hubs) hubs = none :=
    hub_routes_foldlM_none _ _ hubs [] h
  unfold compute_route_deltas
  dsimp only
  rw [hroutes]
  cases compute_expected_hub_routes (compute_gateway_hubs_fn d relevant_gateways)
      (compute_hub_id_redirect_map hubs) hubs <;> rfl

/-- C4 witness scenario hub. -/
def c4w_hub : EnterpriseEdgeListEdge :=
  { id := some 40, logical_id := "HW", name := "hub-w", edge_state := none
    activation_state := none, is_hub := true, ha := none }

/-- C4 witness scenario state: no collected data at all. -/
def c4w_d : RouteDiag := initRouteDiag

/-- C4 witness: the amended theorem applied at a concrete input. -/
theorem c4_uncollected_hub_raises_witness :
    compute_route_deltas c4w_d [("HW", ["GW"])] [c4w_hub] = none :=
  c4_uncollected_hub_raises c4w_d [("HW", ["GW"])] [c4w_hub]
    ⟨c4w_hub, by simp, rfl⟩

/-- C8: for two hubs `H1`, `H2` both redirected to the same cluster id `C`,
the actual route set computed for `C` is the union of the destination sets
extracted from their collected edge dumps, and consequently a destination
present in `H1`'s dump is never in the missing map computed for `C` —
whatever the expected routes — even when it is absent from `H2`'s dump. -/
theorem c8_cluster_union (d : RouteDiag) (H1 H2 : EnterpriseEdgeListEdge)
    (C : String) (D : String × String) (e1 e2 : List EdgeRouteEntry)
    (h1 : dget? d.edge_routes H1.logical_id = some e1)
    (h2 : dget? d.edge_routes H2.logical_id = some e2)
    (hc1 : dget? (compute_hub_id_redirect_map [H1, H2]) H1.logical_id = some C)
    (hc2 : dget? (compute_hub_id_redirect_map [H1, H2]) H2.logical_id = some C) :
    ∃ m, compute_hub_routes d (compute_hub_id_redirect_map [H1, H2]) [H1, H2]
        = some m ∧
      (∀ route, route ∈ (dget? m C).getD []
          ↔ route ∈ e1.map destOf ∨ route ∈ e2.map destOf) ∧
      (D ∈ e1.map destOf →
        ∀ expected peers,
          (D, peers) ∉ missing_routes_of expected ((dget? m C).getD [])) := by
  refine ⟨[(C, setUnion (setUnion [] (e1.map destOf)) (e2.map destOf))], ?_, ?_, ?_⟩
  · simp [compute_hub_routes, hub_routes_step, List.foldlM_cons, List.foldlM_nil,
      h1, h2, hc1, hc2, dget?, dset]
  · intro route
    simp [dget?, mem_setUnion]
  · intro hD expected peers hmem
    have hDmem : D ∈ setUnion (setUnion [] (e1.map destOf)) (e2.map destOf) := by
      rw [mem_setUnion, mem_setUnion]
      exact Or.inl (Or.inr hD)
    have hfilter := (List.mem_filter.mp hmem).2
    simp [dget?] at hfilter
    exact hfilter hDmem

/-- C8 witness scenario: the HA payload shared by both cluster members. -/
def c8w_ha : ListEdgeHa :=
  { data := some { cluster_id := some 7, cluster_name := some "C8" }
    type := some "cluster" }

/-- C8 witness scenario: first cluster member. -/
def c8w_h1 : EnterpriseEdgeListEdge :=
  { id := some 81, logical_id := "H81", name := "hub81", edge_state := none
    activation_state := none, is_hub := true, ha := some c8w_ha }

/-- C8 witness scenario: second cluster member. -/
def c8w_h2 : EnterpriseEdgeListEdge :=
  { id := some 82, logical_id := "H82", name := "hub82", edge_state := none
    activation_state := none, is_hub := true, ha := some c8w_ha }

/-- C8 witness scenario: the destination present only in `H81`'s dump. -/
def c8w_entry : EdgeRouteEntry :=
  { route_type := "Edge", route_address := "10.8.0.0", route_netmask := "16" }

/-- C8 witness scenario state: `H81` reports the destination, `H82` reports
nothing. -/
def c8w_d : RouteDiag :=
  { initRouteDiag with edge_routes := [("H81", [c8w_entry]), ("H82", [])] }

/-- C8 witness: the theorem applied at a concrete two-member cluster. -/
theorem c8_cluster_union_witness :
    ∃ m, compute_hub_routes c8w_d (compute_hub_id_redirect_map [c8w_h1, c8w_h2])
        [c8w_h1, c8w_h2] = some m ∧
      (∀ route, route ∈ (dget? m "C8").getD []
          ↔ route ∈ [c8w_entry].map destOf
            ∨ route ∈ ([] : List EdgeRouteEntry).map destOf) ∧
      (("10.8.0.0", "16") ∈ [c8w_entry].map destOf →
        ∀ expected peers,
          (("10.8.0.0", "16"), peers)
            ∉ missing_routes_of expected ((dget? m "C8").getD [])) :=
  c8_cluster_union c8w_d c8w_h1 c8w_h2 "C8" ("10.8.0.0", "16") [c8w_entry] []
    (by decide) (by decide) (by decide) (by decide)

/-- C9: the three protocol anomalies are all handled without raising: an
unmatched `getGwRouteTable` identity is processed (returning `True`) with
the pending gateway map left unchanged, an unmatched `runDiagnostics`
identity is processed (returning `True`) with the pending edge map left
unchanged, an unrecognized action only logs (returning `False`), and a
`runDiagnostics` frame with empty diagnostic output only logs (returning
`False`); none of them terminates the run. -/
theorem c9_anomalies_never_fatal (d : RouteDiag) (lid test_name : String)
    (groutes : List GatewayRouteEntry) (eroutes : List EdgeRouteEntry)
    (hgw : dget? d.pending_gateways lid = none)
    (hed : dget? d.pending_edges lid = none) :
    (∃ d', handle_message d (.getGwRouteTable lid groutes) = some (d', true) ∧
        d'.pending_gateways = d.pending_gateways) ∧
    (∃ d', handle_message d
        (.runDiagnostics lid test_name (some { route_dump_result := some [eroutes] }))
        = some (d', true) ∧ d'.pending_edges = d.pending_edges) ∧
    handle_message d .other = some (d, false) ∧
    handle_message d (.runDiagnostics lid test_name none) = some (d, false) := by
  refine ⟨⟨handle_gw_routes_fn d lid groutes, rfl, ?_⟩, ?_, rfl, rfl⟩
  · simp [handle_gw_routes_fn, derase_of_none _ _ hgw]
  · by_cases ht : test_name = "ROUTE_DUMP"
    · by_cases he : eroutes.length > 0
      · refine ⟨handle_edge_routes_fn d lid eroutes, ?_, ?_⟩
        · simp [handle_message, handle_edge_response_fn, ht, he]
        · simp [handle_edge_routes_fn, derase_of_none _ _ hed]
      · exact ⟨d, by simp [handle_message, handle_edge_response_fn, ht, he], rfl⟩
    · exact ⟨d, by simp [handle_message, handle_edge_response_fn, beq_iff_eq, ht], rfl⟩

/-- C9 witness: the theorem applied at a fresh engine state, whose pending
maps contain no identity at all. -/
theorem c9_anomalies_never_fatal_witness :
    (∃ d', handle_message initRouteDiag (.getGwRouteTable "gw-x" []) = some (d', true) ∧
        d'.pending_gateways = initRouteDiag.pending_gateways) ∧
    (∃ d', handle_message initRouteDiag
        (.runDiagnostics "gw-x" "ROUTE_DUMP" (some { route_dump_result := some [[]] }))
        = some (d', true) ∧ d'.pending_edges = initRouteDiag.pending_edges) ∧
    handle_message initRouteDiag .other = some (initRouteDiag, false) ∧
    handle_message initRouteDiag (.runDiagnostics "gw-x" "ROUTE_DUMP" none)
      = some (initRouteDiag, false) :=
  c9_anomalies_never_fatal initRouteDiag "gw-x" "ROUTE_DUMP" [] [] rfl rfl

end RouteCheck
